import Mathlib

/-!
Verification development for the automatique-game repository: a shallow
embedding, in Lean, of the error classifier, the capture/analysis failure
handling, the macro playback engine, the playback controller, and the
bounded log stores, together with theorems settling the specified
properties of each.

Numeric values that are JavaScript numbers in the source (coordinates,
momentum, durations) are modelled as rationals; machine integers that the
source keeps as counts are modelled as naturals.
-/

/-! ## String matching (JavaScript `String.prototype.includes`) -/

/-- Boolean infix test on character lists, mirroring the semantics of
JavaScript substring containment. -/
def listInfixOf (needle : List Char) : List Char → Bool
  | [] => needle.isEmpty
  | c :: t => needle.isPrefixOf (c :: t) || listInfixOf needle t

/-- JavaScript `hay.includes(needle)` as `strIncludes hay needle`:
case-sensitive substring containment. -/
def strIncludes (hay needle : String) : Bool :=
  listInfixOf needle.data hay.data

/-- Lower-cased containment: the case-insensitive matching the spec sentence
describes.  This definition follows the spec wording, not the source, and is
used only to compare the two. -/
def strIncludesCI (hay needle : String) : Bool :=
  listInfixOf (needle.data.map Char.toLower) (hay.data.map Char.toLower)

/-! ## Error classifier (App.triggerAnalysis, catch branch) -/

/-- The error categories of the classifier. -/
inductive ErrKind where
  | RateLimit
  | Safety
  | Network
  | Other
deriving DecidableEq, Repr

/-- Source `isRateLimit`:
`technicalMessage.includes("429") || technicalMessage.includes("quota") ||
technicalMessage.includes("RESOURCE_EXHAUSTED")`. -/
def hasRateTok (m : String) : Bool :=
  strIncludes m "429" || strIncludes m "quota" || strIncludes m "RESOURCE_EXHAUSTED"

/-- Source `isSafety`:
`technicalMessage.includes("SAFETY") || technicalMessage.includes("harmful")`. -/
def hasSafetyTok (m : String) : Bool :=
  strIncludes m "SAFETY" || strIncludes m "harmful"

/-- Source `isNetwork`:
`technicalMessage.includes("fetch") || technicalMessage.includes("network")`. -/
def hasNetTok (m : String) : Bool :=
  strIncludes m "fetch" || strIncludes m "network"

/-- Classification of a (possibly unwrapped) message text: the
`if (isRateLimit) ... else if (isSafety) ... else if (isNetwork) ... else ...`
chain of the source, paired with the `nextDelay` it assigns. -/
def classifyMsg (m : String) : ErrKind × Nat :=
  if hasRateTok m then (ErrKind.RateLimit, 25000)
  else if hasSafetyTok m then (ErrKind.Safety, 5000)
  else if hasNetTok m then (ErrKind.Network, 8000)
  else (ErrKind.Other, 5000)

/-- The backoff the spec associates to each category. -/
def backoffOf : ErrKind → Nat
  | ErrKind.RateLimit => 25000
  | ErrKind.Safety => 5000
  | ErrKind.Network => 8000
  | ErrKind.Other => 5000

/-- A raw analysis failure as the catch branch distinguishes it:
a thrown string, an `Error` object (message plus optional stack), or any
other payload, carried as its `JSON.stringify` text. -/
inductive RawFailure where
  | str (s : String)
  | exn (message : String) (stack : Option String)
  | payload (stringified : String)
deriving DecidableEq, Repr

/-- The `technicalMessage` extraction of the source: a thrown string is used
as is, an `Error` contributes its message and, when present, its stack on the
next line, and any other payload is stringified. -/
def extractMessage : RawFailure → String
  | RawFailure.str s => s
  | RawFailure.exn m (some st) => m ++ "\n" ++ st
  | RawFailure.exn m none => m
  | RawFailure.payload s => s

/-- Result of `JSON.parse` as far as the catch branch inspects it: whether an
`error.message` string field is present. -/
structure ParsedErr where
  errorMessage : Option String
deriving DecidableEq, Repr

/-- Source test `technicalMessage.trim().startsWith('\x7b')`, computed on the
character list so that it evaluates: after discarding leading whitespace the
first character is an opening brace (code point 123). -/
def startsWithBraceAfterTrim (s : String) : Bool :=
  match s.data.dropWhile Char.isWhitespace with
  | [] => false
  | c :: _ => c = Char.ofNat 123

/-- The unwrap step of the source: when the trimmed message starts with a
brace, `JSON.parse` is attempted (modelled by the `parse` oracle; `none`
is a parse failure, swallowed by the empty catch), and a present
`error.message` replaces the message. -/
def unwrapMessage (parse : String → Option ParsedErr) (m : String) : String :=
  if startsWithBraceAfterTrim m then
    match parse m with
    | some p =>
      match p.errorMessage with
      | some t => t
      | none => m
    | none => m
  else m

/-- The whole classifier pipeline of the catch branch: extract the message,
unwrap a JSON `error.message` if present, then classify by token matching. -/
def classifyRaw (parse : String → Option ParsedErr) (raw : RawFailure) :
    ErrKind × Nat :=
  classifyMsg (unwrapMessage parse (extractMessage raw))

example : classifyMsg "Error 429: RESOURCE_EXHAUSTED" = (ErrKind.RateLimit, 25000) := by decide
example : classifyMsg "TypeError: fetch failed" = (ErrKind.Network, 8000) := by decide
example : classifyMsg "weird stuff" = (ErrKind.Other, 5000) := by decide
example : classifyMsg "QUOTA exceeded" = (ErrKind.Other, 5000) := by decide
example : strIncludesCI "QUOTA exceeded" "quota" = true := by decide

/-! ## Step model (types.ts) -/

/-- A 2D point in the 0–1000 coordinate space, as rational coordinates. -/
structure Point where
  x : ℚ
  y : ℚ
deriving DecidableEq, Repr

/-- The gesture vocabulary of `MacroStep.type`. -/
inductive StepType where
  | TAP
  | SWIPE
  | WAIT
  | DRAG
  | HUMAN_SWIPE
deriving DecidableEq, Repr

/-- One unit of the action plan (`MacroStep` in types.ts); the fields the
animation consults. -/
structure MacroStep where
  id : String
  type : StepType
  coordinates : Option Point
  endCoordinates : Option Point
  durationMs : ℕ
  description : String
  targetText : Option String
deriving DecidableEq, Repr

/-! ## Macro playback engine (App.animateSingleStep) -/

/-- The ghost-cursor state mutated once per animation update
(`cursorState` in the App component). -/
structure CursorState where
  x : ℚ
  y : ℚ
  isDown : Bool
  type : String
  isVisible : Bool
  precisionMode : Bool
deriving DecidableEq, Repr

/-- The momentum bump performed at the start of each step's animation:
`setMomentum(prev => Math.min(prev + 0.1, 2.0))`. -/
def bumpMomentum (m : ℚ) : ℚ :=
  min (m + 1/10) 2

/-- Momentum after completing `i + 1` step animations of a sequence started
at momentum `1.0` (the reset value set by `triggerAnalysis`). -/
def momentumAfter (i : ℕ) : ℚ :=
  bumpMomentum^[i + 1] 1

/-- Display name the cursor state is tagged with during a motion step. -/
def stepTypeName : StepType → String
  | StepType.TAP => "TAP"
  | StepType.SWIPE => "SWIPE"
  | StepType.WAIT => "WAIT"
  | StepType.DRAG => "DRAG"
  | StepType.HUMAN_SWIPE => "HUMAN_SWIPE"

/-- Source line `const baseDuration = step.durationMs || 500;` — JavaScript `||` replaces
a zero (falsy) duration with 500. -/
def baseDuration (durationMs : ℕ) : ℚ :=
  if durationMs = 0 then 500 else durationMs

/-- Source line `const duration = baseDuration / speedFactor;` — the wall-clock duration
of the swipe motion at speed factor `m`. -/
def swipeDuration (durationMs : ℕ) (m : ℚ) : ℚ :=
  baseDuration durationMs / m

/-- Source line `const progress = Math.min(elapsed / duration, 1);`. -/
def swipeProgress (elapsed duration : ℚ) : ℚ :=
  min (elapsed / duration) 1

/-- The `HUMAN_SWIPE` easing of the source:
`t < .5 ? 2 * t * t : -1 + (4 - 2 * t) * t`. -/
def easeHuman (t : ℚ) : ℚ :=
  if t < 1/2 then 2 * t * t else -1 + (4 - 2 * t) * t

/-- The identity easing used by `SWIPE` and `DRAG`. -/
def easeLinear (t : ℚ) : ℚ := t

/-- The easing selected per step kind:
`step.type === 'HUMAN_SWIPE' ? (t => ...) : (t => t)`. -/
def easeFor (k : StepType) : ℚ → ℚ :=
  if k = StepType.HUMAN_SWIPE then easeHuman else easeLinear

/-- The cursor position written by one `animateSwipe` frame at a given
elapsed time: eased progress interpolated between `coordinates` and
`endCoordinates`. -/
def swipeFramePos (k : StepType) (s e : Point) (elapsed duration : ℚ) : Point :=
  let t := easeFor k (swipeProgress elapsed duration)
  ⟨s.x + (e.x - s.x) * t, s.y + (e.y - s.y) * t⟩

/-- Guard of the swipe/drag/human-swipe action branch:
`(step.type === 'SWIPE' || step.type === 'HUMAN_SWIPE' || step.type === 'DRAG')
&& step.coordinates && step.endCoordinates`. -/
def isMotionAct (step : MacroStep) : Bool :=
  (step.type = StepType.SWIPE || step.type = StepType.HUMAN_SWIPE
    || step.type = StepType.DRAG)
  && step.coordinates.isSome && step.endCoordinates.isSome

/-- The pre-phase `setCursorState(prev => ({...prev, isVisible: true,
precisionMode: false}))`. -/
def showPhase (c : CursorState) : CursorState :=
  { c with isVisible := true, precisionMode := false }

/-- Travel phase: if `step.coordinates` is present the cursor is moved there
with `isDown: false, type: 'MOVE'`. -/
def travelPhase (step : MacroStep) (c : CursorState) : CursorState :=
  match step.coordinates with
  | some p =>
    { x := p.x, y := p.y, isDown := false, type := "MOVE",
      isVisible := true, precisionMode := false }
  | none => c

/-- Lock phase: if `step.coordinates` is present and the kind is not `WAIT`,
the precision crosshair is shown. -/
def lockPhase (step : MacroStep) (c : CursorState) : CursorState :=
  match step.coordinates with
  | some _ => if step.type = StepType.WAIT then c else { c with precisionMode := true }
  | none => c

/-- The TAP press update: snap exactly to `coordinates` when present, press
down with the precision flag. -/
def tapPress (step : MacroStep) (c : CursorState) : CursorState :=
  match step.coordinates with
  | some p =>
    { c with x := p.x, y := p.y, isDown := true, type := "TAP", precisionMode := true }
  | none => { c with isDown := true, type := "TAP", precisionMode := true }

/-- The TAP release update: `{...prev, isDown: false, precisionMode: false}`. -/
def tapRelease (c : CursorState) : CursorState :=
  { c with isDown := false, precisionMode := false }

/-- The final cursor written by the swipe branch: the last `animateSwipe`
frame runs at progress 1 (position = `endCoordinates` since both easings fix
1), then `{...prev, isDown: false}`. -/
def swipeFinal (step : MacroStep) (c : CursorState) : CursorState :=
  match step.coordinates, step.endCoordinates with
  | some s, some e =>
    let p := swipeFramePos step.type s e 1 1
    { x := p.x, y := p.y, isDown := false, type := stepTypeName step.type,
      isVisible := true, precisionMode := false }
  | _, _ => c

/-- Action phase, branching on `step.type` exactly as the source's
`if / else if` chain does. -/
def actPhase (step : MacroStep) (c : CursorState) : CursorState :=
  if step.type = StepType.TAP then tapRelease (tapPress step c)
  else if isMotionAct step then swipeFinal step c
  else if step.type = StepType.WAIT then { c with type := "WAIT..." }
  else c

/-- Outcome of animating one step at speed factor `m` (the `speedFactor`
read by the source before the await points): the final cursor, whether the
pressed flag was ever raised during the step, the press-hold duration of a
TAP, and whether the trailing recovery pause was executed (the swipe branch
returns its promise directly, skipping it). -/
structure AnimOutcome where
  final : CursorState
  pressedEver : Bool
  pressMs : ℚ
  reachedRecover : Bool
  recoverMs : ℚ
deriving DecidableEq, Repr

/-- Shallow embedding of `animateSingleStep` for a defined step while the
engine is running: the phase pipeline show → travel → lock → act, the
100/speedFactor press hold of a TAP, and the 100/speedFactor recovery pause
reached by every non-swipe-branch step. -/
def animateSingleStep (m : ℚ) (step : MacroStep) (c : CursorState) : AnimOutcome :=
  let c1 := travelPhase step (showPhase c)
  let c2 := lockPhase step c1
  let final := actPhase step c2
  let pressed := step.type = StepType.TAP || isMotionAct step
  { final := final
    pressedEver := pressed
    pressMs := if step.type = StepType.TAP then 100 / m else 0
    reachedRecover := !(isMotionAct step)
    recoverMs := 100 / m }

/-! ## Playback controller (MacroView) -/

/-- Controller state: the current step index (`-1` = idle display), the
local playing flag, and the engine momentum. -/
structure PlaybackState where
  idx : ℤ
  playing : Bool
  momentum : ℚ
deriving DecidableEq, Repr

/-- Arrival of a new sequence: `triggerAnalysis` resets momentum to 1.0
(`setMomentum(1.0)`), and MacroView's sequence effect sets index 0 and
autoplay for a non-empty sequence, index -1 and stopped for an empty one. -/
def attach (seq : List MacroStep) (_s : PlaybackState) : PlaybackState :=
  if seq.length > 0 then { idx := 0, playing := true, momentum := 1 }
  else { idx := -1, playing := false, momentum := 1 }

/-- Source `togglePlay`: flips the playing flag only. -/
def togglePlay (s : PlaybackState) : PlaybackState :=
  { s with playing := !s.playing }

/-- Source `stepForward`: force paused, `Math.min(currentStepIndex + 1,
sequence.length - 1)`. -/
def stepForward (len : ℕ) (s : PlaybackState) : PlaybackState :=
  { s with playing := false, idx := min (s.idx + 1) ((len : ℤ) - 1) }

/-- Source `stepBackward`: force paused, `Math.max(currentStepIndex - 1, 0)`. -/
def stepBackward (s : PlaybackState) : PlaybackState :=
  { s with playing := false, idx := max (s.idx - 1) 0 }

/-- One iteration of MacroView's `playLoop` while playing at index `idx`:
when the index is in range the current step is animated (any preview
rejection is caught and swallowed) and the index advances by one; past the
end the loop stops. -/
def loopIter (m : ℚ) (seq : List MacroStep) (idx : ℕ) (c : CursorState) :
    Option (ℕ × CursorState) :=
  if h : idx < seq.length then
    let r := animateSingleStep m (seq.get ⟨idx, h⟩) c
    some (idx + 1, r.final)
  else none

/-! ## Scheduler failure handling and stop (App.triggerAnalysis / stopLiveAnalysis) -/

/-- Severity recorded on the persisted error log:
`isRateLimit ? 'WARNING' : 'ERROR'`. -/
inductive Severity where
  | WARNING
  | ERROR
deriving DecidableEq, Repr

/-- The UI/scheduler outcome of one analysis failure: the retry countdown
seconds, whether the one-per-second countdown interval was installed, the
surfaced error banner, the persisted severity, and the delay used to re-arm
the live loop. -/
structure FailureOutcome where
  retryTimerS : ℕ
  countdownActive : Bool
  errorShown : Option String
  severity : Severity
  nextDelayMs : ℕ
deriving DecidableEq, Repr

/-- The failure branch of `triggerAnalysis` applied to the (already
unwrapped) technical message: every category sets `nextDelay`, but only the
rate-limit case clears the error banner, sets `retryTimer = nextDelay/1000`
and installs the decrementing interval; the other three surface a friendly
message and leave the countdown untouched (it was reset to 0 at entry). -/
def onAnalysisFailure (m : String) : FailureOutcome :=
  if hasRateTok m then
    { retryTimerS := 25000 / 1000, countdownActive := true, errorShown := none,
      severity := Severity.WARNING, nextDelayMs := 25000 }
  else if hasSafetyTok m then
    { retryTimerS := 0, countdownActive := false,
      errorShown := some "Safety filters triggered. Adjusting parameters.",
      severity := Severity.ERROR, nextDelayMs := 5000 }
  else if hasNetTok m then
    { retryTimerS := 0, countdownActive := false,
      errorShown := some "Network uplink lost. Reconnecting...",
      severity := Severity.ERROR, nextDelayMs := 8000 }
  else
    { retryTimerS := 0, countdownActive := false,
      errorShown := some ("System Error: " ++ (m.take 40) ++ "..."),
      severity := Severity.ERROR, nextDelayMs := 5000 }

/-- One tick of the retry countdown interval:
`setRetryTimer(prev => Math.max(0, prev - 1))`. -/
def retryTick (s : ℕ) : ℕ :=
  s - 1

/-- Scheduler-owned state touched by `stopLiveAnalysis`: the live flag, the
two timer handles, the countdown, whether a capture stream is attached to
the video element, how many times stream tracks have been stopped, and the
cursor visibility. -/
structure SchedState where
  live : Bool
  timerHandle : Option ℕ
  retryIntervalHandle : Option ℕ
  retryTimerS : ℕ
  sourceAttached : Bool
  sourceReleaseCount : ℕ
  cursorVisible : Bool
deriving DecidableEq, Repr

/-- Source `stopLiveAnalysis`: clears the live flag, cancels and nulls both timer
handles, zeroes the countdown, and — only when a stream is still attached —
stops its tracks (counted) and detaches it, then hides the cursor. -/
def stopLive (s : SchedState) : SchedState :=
  { live := false
    timerHandle := none
    retryIntervalHandle := none
    retryTimerS := 0
    sourceAttached := false
    sourceReleaseCount := s.sourceReleaseCount + (if s.sourceAttached then 1 else 0)
    cursorVisible := false }

/-! ## Bounded log stores (services/storage.ts) -/

/-- Source `saveLog`: `if (logs.length > 50) logs.shift(); logs.push(log);` —
drop the front when more than 50 records are stored, then append. -/
def saveLog (logs : List α) (l : α) : List α :=
  (if logs.length > 50 then logs.tail else logs) ++ [l]

/-- Source `saveErrorLog` has the identical retention logic on the error store. -/
def saveErrorLog (logs : List α) (l : α) : List α :=
  (if logs.length > 50 then logs.tail else logs) ++ [l]

/-! ## Helper lemmas -/

/-- Priority characterization of the classifier on a message text: each
category is hit exactly when its token matches and no earlier rule fired,
and the returned delay is the category's backoff. -/
theorem classifyMsg_characterization (m : String) :
    ((classifyMsg m).1 = ErrKind.RateLimit ↔ hasRateTok m = true) ∧
    ((classifyMsg m).1 = ErrKind.Safety ↔
      (hasRateTok m = false ∧ hasSafetyTok m = true)) ∧
    ((classifyMsg m).1 = ErrKind.Network ↔
      (hasRateTok m = false ∧ hasSafetyTok m = false ∧ hasNetTok m = true)) ∧
    ((classifyMsg m).1 = ErrKind.Other ↔
      (hasRateTok m = false ∧ hasSafetyTok m = false ∧ hasNetTok m = false)) ∧
    (classifyMsg m).2 = backoffOf (classifyMsg m).1 := by
  cases h1 : hasRateTok m <;> cases h2 : hasSafetyTok m <;>
    cases h3 : hasNetTok m <;>
      simp [classifyMsg, h1, h2, h3, backoffOf]

/-- Momentum after `k` bumps from the reset value `1.0`. -/
theorem bumpMomentum_iterate (k : ℕ) :
    bumpMomentum^[k] 1 = min (1 + (k : ℚ) / 10) 2 := by
  induction k with
  | zero =>
    rw [Function.iterate_zero_apply]
    rw [min_eq_left (by norm_num)]
    norm_num
  | succ n ih =>
    rw [Function.iterate_succ_apply', ih, bumpMomentum]
    rcases le_total (1 + (n : ℚ) / 10) 2 with h | h
    · rw [min_eq_left h]
      congr 1
      push_cast
      ring
    · rw [min_eq_right h]
      rw [min_eq_right (by linarith)]
      rw [min_eq_right (by push_cast; linarith)]

/-! ## Claim theorems -/

/-- C1, counterexample: the source's token matching is case-sensitive, not
case-insensitive — the message `"QUOTA exceeded"` contains `"quota"` up to
case, yet the classifier yields `Other` with backoff 5000 instead of the
claimed `RateLimit` with 25000; moreover a payload whose stringified text is
not parseable JSON is not forced to `Other`: it is classified by the same
token rules, here as `Network`. -/
theorem C1_counterexample :
    strIncludesCI "QUOTA exceeded" "quota" = true ∧
    classifyMsg "QUOTA exceeded" = (ErrKind.Other, 5000) ∧
    classifyMsg "QUOTA exceeded" ≠ (ErrKind.RateLimit, 25000) ∧
    classifyRaw (fun _ => none) (RawFailure.payload "[object fetch]")
      = (ErrKind.Network, 8000) := by
  refine ⟨by decide, by decide, by decide, by decide⟩

/-- C1, amended: for every raw analysis failure the classifier totally
produces exactly one record by first-match-wins, CASE-SENSITIVE substring
matching on the message text; `429`/`quota`/`RESOURCE_EXHAUSTED` yield
RateLimit (25000), `SAFETY`/`harmful` yield Safety (5000),
`fetch`/`network` yield Network (8000), anything else Other (5000); a
message that parses as a JSON object with an `error.message` field is
unwrapped first, and an unparseable message is classified as it stands. -/
theorem C1_classifier (parse : String → Option ParsedErr) (raw : RawFailure) :
    ((classifyRaw parse raw).1 = ErrKind.RateLimit ↔
      hasRateTok (unwrapMessage parse (extractMessage raw)) = true) ∧
    ((classifyRaw parse raw).1 = ErrKind.Safety ↔
      (hasRateTok (unwrapMessage parse (extractMessage raw)) = false ∧
       hasSafetyTok (unwrapMessage parse (extractMessage raw)) = true)) ∧
    ((classifyRaw parse raw).1 = ErrKind.Network ↔
      (hasRateTok (unwrapMessage parse (extractMessage raw)) = false ∧
       hasSafetyTok (unwrapMessage parse (extractMessage raw)) = false ∧
       hasNetTok (unwrapMessage parse (extractMessage raw)) = true)) ∧
    ((classifyRaw parse raw).1 = ErrKind.Other ↔
      (hasRateTok (unwrapMessage parse (extractMessage raw)) = false ∧
       hasSafetyTok (unwrapMessage parse (extractMessage raw)) = false ∧
       hasNetTok (unwrapMessage parse (extractMessage raw)) = false)) ∧
    (classifyRaw parse raw).2 = backoffOf (classifyRaw parse raw).1 ∧
    (∀ p t, startsWithBraceAfterTrim (extractMessage raw) = true →
      parse (extractMessage raw) = some p → p.errorMessage = some t →
      classifyRaw parse raw = classifyMsg t) ∧
    (startsWithBraceAfterTrim (extractMessage raw) = false →
      classifyRaw parse raw = classifyMsg (extractMessage raw)) := by
  refine ⟨(classifyMsg_characterization _).1,
    (classifyMsg_characterization _).2.1,
    (classifyMsg_characterization _).2.2.1,
    (classifyMsg_characterization _).2.2.2.1,
    (classifyMsg_characterization _).2.2.2.2, ?_, ?_⟩
  · intro p t hb hp ht
    simp [classifyRaw, unwrapMessage, hb, hp, ht]
  · intro hb
    simp [classifyRaw, unwrapMessage, hb]

/-- C1, witness: instantiating the unwrap clause at a concrete JSON-looking
failure whose parse yields an `error.message`. -/
theorem C1_classifier_witness :
    classifyRaw (fun _ => some ⟨some "quota hit"⟩)
      (RawFailure.str "\x7b a \x7d") = classifyMsg "quota hit" := by
  exact (C1_classifier (fun _ => some ⟨some "quota hit"⟩)
      (RawFailure.str "\x7b a \x7d")).2.2.2.2.2.1
    ⟨some "quota hit"⟩ "quota hit" (by decide) rfl rfl

/-- C2, counterexample: the claimed motion duration `max(durationMs,1)/momentum`
fails at `durationMs = 0` — the source's `durationMs || 500` substitutes 500,
so at momentum 1.0 the animation runs for 500 ms where the claim demands 1 ms. -/
theorem C2_counterexample :
    swipeDuration 0 1 = 500 ∧
    (max (0 : ℚ) 1) / 1 = 1 ∧
    swipeDuration 0 1 ≠ (max (0 : ℚ) 1) / 1 := by
  refine ⟨by norm_num [swipeDuration, baseDuration], by norm_num, ?_⟩
  norm_num [swipeDuration, baseDuration]

/-- C2, amended: a Swipe/Drag/HumanSwipe step with both endpoints animates
over `(durationMs` if positive, else `500)/momentum` ms; HumanSwipe maps
progress through the symmetric ease (`t<0.5: 2t²`, else `1−2(1−t)²`, the
source's `−1+(4−2t)t`), Swipe and Drag interpolate linearly; a HumanSwipe
from (0,0) to (1000,1000) with durationMs 1000 at momentum 1.0 is at
(125,125) when 250 ms have elapsed. -/
theorem C2_swipe_animation :
    (∀ d : ℕ, 1 ≤ d → ∀ m : ℚ, swipeDuration d m = (max (d : ℚ) 1) / m) ∧
    (∀ m : ℚ, swipeDuration 0 m = 500 / m) ∧
    (∀ t : ℚ, t < 1/2 → easeHuman t = 2 * t * t) ∧
    (∀ t : ℚ, 1/2 ≤ t → easeHuman t = 1 - 2 * (1 - t) * (1 - t)) ∧
    (∀ s e : Point, ∀ el du : ℚ, swipeFramePos StepType.SWIPE s e el du =
      ⟨s.x + (e.x - s.x) * swipeProgress el du,
       s.y + (e.y - s.y) * swipeProgress el du⟩) ∧
    (∀ s e : Point, ∀ el du : ℚ, swipeFramePos StepType.DRAG s e el du =
      ⟨s.x + (e.x - s.x) * swipeProgress el du,
       s.y + (e.y - s.y) * swipeProgress el du⟩) ∧
    (∀ s e : Point, ∀ el du : ℚ, swipeFramePos StepType.HUMAN_SWIPE s e el du =
      ⟨s.x + (e.x - s.x) * easeHuman (swipeProgress el du),
       s.y + (e.y - s.y) * easeHuman (swipeProgress el du)⟩) ∧
    swipeFramePos StepType.HUMAN_SWIPE ⟨0, 0⟩ ⟨1000, 1000⟩ 250
      (swipeDuration 1000 1) = ⟨125, 125⟩ := by
  refine ⟨?_, ?_, ?_, ?_, ?_, ?_, ?_, ?_⟩
  · intro d hd m
    have hd0 : d ≠ 0 := by omega
    have h1 : (1 : ℚ) ≤ (d : ℚ) := by exact_mod_cast hd
    rw [swipeDuration, baseDuration, if_neg hd0, max_eq_left h1]
  · intro m
    rw [swipeDuration, baseDuration, if_pos rfl]
  · intro t ht
    rw [easeHuman, if_pos ht]
  · intro t ht
    rw [easeHuman, if_neg (not_lt.mpr ht)]
    ring
  · intro s e el du
    simp [swipeFramePos, easeFor, easeLinear]
  · intro s e el du
    simp [swipeFramePos, easeFor, easeLinear]
  · intro s e el du
    simp [swipeFramePos, easeFor]
  · have hdur : swipeDuration 1000 1 = 1000 := by
      norm_num [swipeDuration, baseDuration]
    have hprog : swipeProgress 250 (swipeDuration 1000 1) = 1/4 := by
      rw [hdur, swipeProgress]
      norm_num
    have hease : easeHuman (1/4 : ℚ) = 1/8 := by
      rw [easeHuman, if_pos (by norm_num)]
      norm_num
    simp only [swipeFramePos, easeFor, if_pos rfl, hprog]
    norm_num [easeHuman]

/-- C2, witness: the duration clause at the concrete step duration 2 ms
and momentum 1. -/
theorem C2_swipe_animation_witness :
    swipeDuration 2 1 = (max (2 : ℚ) 1) / 1 :=
  C2_swipe_animation.1 2 (by norm_num) 1

/-- C3: momentum starts from the reset value 1.0 whenever a sequence is
attached, and after completing step `i` (zero-based, so `i + 1` bumps of
`min(· + 0.1, 2.0)`) equals `min(1.0 + 0.1·(i+1), 2.0)`, a value always
within `[1.0, 2.0]`. -/
theorem C3_momentum_invariant (i : ℕ) :
    (∀ (seq : List MacroStep) (s : PlaybackState), (attach seq s).momentum = 1) ∧
    momentumAfter i = min (1 + ((i : ℚ) + 1) / 10) 2 ∧
    1 ≤ momentumAfter i ∧ momentumAfter i ≤ 2 := by
  have hiter : momentumAfter i = min (1 + ((i : ℚ) + 1) / 10) 2 := by
    rw [momentumAfter, bumpMomentum_iterate]
    push_cast
    ring_nf
  refine ⟨?_, hiter, ?_, ?_⟩
  · intro seq s
    rw [attach]
    split <;> rfl
  · rw [hiter]
    have h0 : (0 : ℚ) ≤ ((i : ℚ) + 1) / 10 := by positivity
    exact le_min (by linarith) (by norm_num)
  · rw [hiter]
    exact min_le_right _ _

/-- C4, counterexample: attaching an empty sequence does not reset the index
to 0 — MacroView's sequence effect sets it to the idle marker −1. -/
theorem C4_counterexample :
    (attach ([] : List MacroStep) ⟨5, true, 3/2⟩).idx = -1 ∧
    (attach ([] : List MacroStep) ⟨5, true, 3/2⟩).idx ≠ 0 := by
  refine ⟨rfl, by decide⟩

/-- C4, amended: attaching a sequence always resets momentum to 1.0 and sets
Playing exactly when the sequence is non-empty; the index is reset to 0 for
a non-empty sequence and to the idle marker −1 for an empty one. -/
theorem C4_attach (seq : List MacroStep) (s : PlaybackState) :
    (attach seq s).momentum = 1 ∧
    ((attach seq s).playing = true ↔ 0 < seq.length) ∧
    (0 < seq.length → (attach seq s).idx = 0) ∧
    (seq.length = 0 → (attach seq s).idx = -1) := by
  rcases seq with _ | ⟨a, tl⟩ <;> simp [attach]

/-- C4, witness: attaching a concrete one-step sequence from a playing state. -/
theorem C4_attach_witness :
    (attach [⟨"s1", StepType.TAP, some ⟨300, 700⟩, none, 0, "tap", none⟩]
      ⟨7, false, 2⟩).idx = 0 :=
  (C4_attach [⟨"s1", StepType.TAP, some ⟨300, 700⟩, none, 0, "tap", none⟩]
    ⟨7, false, 2⟩).2.2.1 (by norm_num)

/-- Ticking the retry countdown `k` times from `s` seconds. -/
theorem retryTick_iterate (k s : ℕ) : retryTick^[k] s = s - k := by
  induction k generalizing s with
  | zero => simp
  | succ n ih =>
    rw [Function.iterate_succ_apply, ih, retryTick]
    omega

/-- C5, counterexample: a Network-classified failure does not start the
retry countdown — only the rate-limit branch installs the interval; after a
`fetch` failure the countdown is 0 and no interval is active, against the
claimed live countdown from `backoffMs` for all four categories. -/
theorem C5_counterexample :
    hasNetTok "TypeError: fetch failed" = true ∧
    (classifyMsg "TypeError: fetch failed").2 = 8000 ∧
    (onAnalysisFailure "TypeError: fetch failed").countdownActive = false ∧
    (onAnalysisFailure "TypeError: fetch failed").retryTimerS = 0 := by
  refine ⟨by decide, by decide, by decide, by decide⟩

/-- C5, amended: every failure uses the classified `backoffMs` as the next
re-arm delay, but the live one-per-second countdown is installed only for
RateLimit failures, where it starts at `backoffMs/1000` seconds with the
error banner cleared; Safety, Network and Other failures surface an error
banner instead and leave the countdown at zero; each countdown tick
decrements by one (floored at zero), so a countdown of `n` seconds reaches
zero after `n` ticks. -/
theorem C5_retry_countdown (m : String) :
    (onAnalysisFailure m).nextDelayMs = (classifyMsg m).2 ∧
    ((onAnalysisFailure m).countdownActive = true ↔
      (classifyMsg m).1 = ErrKind.RateLimit) ∧
    ((classifyMsg m).1 = ErrKind.RateLimit →
      (onAnalysisFailure m).retryTimerS = (classifyMsg m).2 / 1000 ∧
      (onAnalysisFailure m).errorShown = none) ∧
    ((classifyMsg m).1 ≠ ErrKind.RateLimit →
      (onAnalysisFailure m).retryTimerS = 0 ∧
      (onAnalysisFailure m).countdownActive = false ∧
      (onAnalysisFailure m).errorShown ≠ none) ∧
    (∀ n : ℕ, retryTick^[n] n = 0) := by
  refine ⟨?_, ?_, ?_, ?_, ?_⟩
  · cases h1 : hasRateTok m <;> cases h2 : hasSafetyTok m <;>
      cases h3 : hasNetTok m <;>
        simp [onAnalysisFailure, classifyMsg, h1, h2, h3]
  · cases h1 : hasRateTok m <;> cases h2 : hasSafetyTok m <;>
      cases h3 : hasNetTok m <;>
        simp [onAnalysisFailure, classifyMsg, h1, h2, h3]
  · cases h1 : hasRateTok m <;> cases h2 : hasSafetyTok m <;>
      cases h3 : hasNetTok m <;>
        simp [onAnalysisFailure, classifyMsg, h1, h2, h3]
  · cases h1 : hasRateTok m <;> cases h2 : hasSafetyTok m <;>
      cases h3 : hasNetTok m <;>
        simp [onAnalysisFailure, classifyMsg, h1, h2, h3]
  · intro n
    rw [retryTick_iterate]
    omega

/-- C5, witness: the rate-limit clause at the concrete message `"429"`. -/
theorem C5_retry_countdown_witness :
    (onAnalysisFailure "429").retryTimerS = (classifyMsg "429").2 / 1000 ∧
    (onAnalysisFailure "429").errorShown = none :=
  (C5_retry_countdown "429").2.2.1 (by decide)

/-- C6: a Tap step with a start coordinate ends its action phase with the
pointer exactly at that coordinate with the press released, for every
momentum value and every prior cursor state; the press is held for
`100/momentum` ms and the step reaches the recovery pause. -/
theorem C6_tap_exact (step : MacroStep) (p : Point) (m : ℚ) (c : CursorState)
    (htype : step.type = StepType.TAP) (hc : step.coordinates = some p) :
    (animateSingleStep m step c).final.x = p.x ∧
    (animateSingleStep m step c).final.y = p.y ∧
    (animateSingleStep m step c).final.isDown = false ∧
    (animateSingleStep m step c).pressMs = 100 / m ∧
    (animateSingleStep m step c).reachedRecover = true := by
  simp [animateSingleStep, actPhase, tapPress, tapRelease, travelPhase,
    lockPhase, showPhase, isMotionAct, htype, hc]

/-- C6, witness: a concrete Tap at (300,700) from a cursor parked at
(500,500) with momentum 1.4. -/
theorem C6_tap_exact_witness :
    (animateSingleStep (7/5)
        ⟨"t1", StepType.TAP, some ⟨300, 700⟩, none, 0, "tap", none⟩
        ⟨500, 500, false, "IDLE", false, false⟩).final.x = (300 : ℚ) ∧
    (animateSingleStep (7/5)
        ⟨"t1", StepType.TAP, some ⟨300, 700⟩, none, 0, "tap", none⟩
        ⟨500, 500, false, "IDLE", false, false⟩).final.y = (700 : ℚ) ∧
    (animateSingleStep (7/5)
        ⟨"t1", StepType.TAP, some ⟨300, 700⟩, none, 0, "tap", none⟩
        ⟨500, 500, false, "IDLE", false, false⟩).final.isDown = false ∧
    (animateSingleStep (7/5)
        ⟨"t1", StepType.TAP, some ⟨300, 700⟩, none, 0, "tap", none⟩
        ⟨500, 500, false, "IDLE", false, false⟩).pressMs = 100 / (7/5) ∧
    (animateSingleStep (7/5)
        ⟨"t1", StepType.TAP, some ⟨300, 700⟩, none, 0, "tap", none⟩
        ⟨500, 500, false, "IDLE", false, false⟩).reachedRecover = true :=
  C6_tap_exact ⟨"t1", StepType.TAP, some ⟨300, 700⟩, none, 0, "tap", none⟩
    ⟨300, 700⟩ (7/5) ⟨500, 500, false, "IDLE", false, false⟩ rfl rfl

/-- C7, counterexample: a Swipe whose `end` is missing but whose `start` is
present is not motionless — the Travel phase still moves the pointer to
`start` (here from (500,500) to (100,100)), against the claimed
"performs no motion". -/
theorem C7_counterexample :
    (animateSingleStep 1
        ⟨"s", StepType.SWIPE, some ⟨100, 100⟩, none, 500, "", none⟩
        ⟨500, 500, false, "IDLE", true, false⟩).final.x = 100 ∧
    (animateSingleStep 1
        ⟨"s", StepType.SWIPE, some ⟨100, 100⟩, none, 500, "", none⟩
        ⟨500, 500, false, "IDLE", true, false⟩).final.x ≠ 500 := by
  refine ⟨by decide, by decide⟩

/-- C7, amended: a Swipe/Drag/HumanSwipe step with a missing `end` performs
no press and no action-phase motion — with no `start` the pointer position
is unchanged, with a `start` only the Travel approach to it occurs — the
step falls through to the recovery pause without erroring, and the playback
loop still advances to the next index. -/
theorem C7_degenerate_steps (step : MacroStep) (m : ℚ) (c : CursorState)
    (hk : step.type = StepType.SWIPE ∨ step.type = StepType.DRAG ∨
      step.type = StepType.HUMAN_SWIPE)
    (he : step.endCoordinates = none) :
    (animateSingleStep m step c).pressedEver = false ∧
    (animateSingleStep m step c).reachedRecover = true ∧
    (animateSingleStep m step c).recoverMs = 100 / m ∧
    (step.coordinates = none →
      (animateSingleStep m step c).final.x = c.x ∧
      (animateSingleStep m step c).final.y = c.y ∧
      (animateSingleStep m step c).final.isDown = c.isDown) ∧
    (∀ p : Point, step.coordinates = some p →
      (animateSingleStep m step c).final.x = p.x ∧
      (animateSingleStep m step c).final.y = p.y ∧
      (animateSingleStep m step c).final.isDown = false) ∧
    (∀ (seq : List MacroStep) (idx : ℕ) (h : idx < seq.length),
      seq.get ⟨idx, h⟩ = step →
      loopIter m seq idx c = some (idx + 1, (animateSingleStep m step c).final)) := by
  have hmot : isMotionAct step = false := by
    simp [isMotionAct, he]
  have htap : ¬ step.type = StepType.TAP := by
    rcases hk with h | h | h <;> rw [h] <;> decide
  have hwait : ¬ step.type = StepType.WAIT := by
    rcases hk with h | h | h <;> rw [h] <;> decide
  refine ⟨?_, ?_, rfl, ?_, ?_, ?_⟩
  · simp [animateSingleStep, hmot, htap]
  · simp [animateSingleStep, hmot]
  · intro hc
    simp [animateSingleStep, actPhase, travelPhase, lockPhase, showPhase,
      hmot, htap, hwait, hc]
  · intro p hc
    simp [animateSingleStep, actPhase, travelPhase, lockPhase, showPhase,
      hmot, htap, hwait, hc]
  · intro seq idx h hget
    rw [loopIter, dif_pos h, hget]

/-- C7, witness: the concrete degenerate Swipe of the counterexample,
embedded in a two-step sequence at index 0 — no press, recovery reached,
and the loop advances to index 1. -/
theorem C7_degenerate_steps_witness :
    (animateSingleStep 1
        ⟨"s", StepType.SWIPE, some ⟨100, 100⟩, none, 500, "", none⟩
        ⟨500, 500, false, "IDLE", true, false⟩).pressedEver = false ∧
    (animateSingleStep 1
        ⟨"s", StepType.SWIPE, some ⟨100, 100⟩, none, 500, "", none⟩
        ⟨500, 500, false, "IDLE", true, false⟩).reachedRecover = true ∧
    loopIter 1
        [⟨"s", StepType.SWIPE, some ⟨100, 100⟩, none, 500, "", none⟩,
         ⟨"t", StepType.TAP, some ⟨1, 2⟩, none, 0, "", none⟩] 0
        ⟨500, 500, false, "IDLE", true, false⟩
      = some (1, (animateSingleStep 1
          ⟨"s", StepType.SWIPE, some ⟨100, 100⟩, none, 500, "", none⟩
          ⟨500, 500, false, "IDLE", true, false⟩).final) := by
  have h := C7_degenerate_steps
    ⟨"s", StepType.SWIPE, some ⟨100, 100⟩, none, 500, "", none⟩ 1
    ⟨500, 500, false, "IDLE", true, false⟩ (Or.inl rfl) rfl
  exact ⟨h.1, h.2.1, h.2.2.2.2.2
    [⟨"s", StepType.SWIPE, some ⟨100, 100⟩, none, 500, "", none⟩,
     ⟨"t", StepType.TAP, some ⟨1, 2⟩, none, 0, "", none⟩] 0 (by norm_num) rfl⟩

/-- Applying `stopLive` twice is the same as applying it once: the second
call finds the source already detached and adds no release. -/
theorem stopLive_idem (s : SchedState) : stopLive (stopLive s) = stopLive s := by
  simp [stopLive]

/-- C8: `stopLiveAnalysis` is idempotent — any positive number of
consecutive calls equals one call, the resulting state is idle (live flag
down, both timer handles cleared, countdown zero, cursor hidden), and the
capture source is released exactly once across the repeated calls when it
was attached, and never when it was not. -/
theorem C8_stopLive_idempotent (s : SchedState) (n : ℕ) (hn : 1 ≤ n) :
    stopLive^[n] s = stopLive s ∧
    (stopLive s).live = false ∧
    (stopLive s).timerHandle = none ∧
    (stopLive s).retryIntervalHandle = none ∧
    (stopLive s).retryTimerS = 0 ∧
    (stopLive s).cursorVisible = false ∧
    (stopLive s).sourceAttached = false ∧
    (s.sourceAttached = true →
      (stopLive^[n] s).sourceReleaseCount = s.sourceReleaseCount + 1) ∧
    (s.sourceAttached = false →
      (stopLive^[n] s).sourceReleaseCount = s.sourceReleaseCount) := by
  have hiter : stopLive^[n] s = stopLive s := by
    induction n with
    | zero => omega
    | succ k ih =>
      rcases Nat.eq_or_lt_of_le hn with h1 | h1
      · rw [← h1]
        simp
      · have hk : 1 ≤ k := by omega
        rw [Function.iterate_succ_apply', ih hk, stopLive_idem]
  refine ⟨hiter, rfl, rfl, rfl, rfl, rfl, rfl, ?_, ?_⟩
  · intro ha
    rw [hiter]
    simp [stopLive, ha]
  · intro ha
    rw [hiter]
    simp [stopLive, ha]

/-- C8, witness: two consecutive stops of a live state holding timers and
an attached stream. -/
theorem C8_stopLive_idempotent_witness :
    stopLive^[2] ⟨true, some 3, some 4, 25, true, 0, true⟩
      = stopLive ⟨true, some 3, some 4, 25, true, 0, true⟩ ∧
    (stopLive^[2] ⟨true, some 3, some 4, 25, true, 0, true⟩).sourceReleaseCount
      = 1 := by
  have h := C8_stopLive_idempotent ⟨true, some 3, some 4, 25, true, 0, true⟩ 2
    (by norm_num)
  exact ⟨h.1, h.2.2.2.2.2.2.2.1 rfl⟩

/-- C9: `stepForward` and `stepBackward` always force the paused state and
clamp the index: stepping forward at the last step leaves the index
unchanged, stepping backward at 0 leaves it at 0, and from any in-bounds
index both moves stay within `[0, length)`. -/
theorem C9_step_clamped (len : ℕ) (s : PlaybackState) :
    (stepForward len s).playing = false ∧
    (stepBackward s).playing = false ∧
    (s.idx = (len : ℤ) - 1 → (stepForward len s).idx = s.idx) ∧
    (s.idx = 0 → (stepBackward s).idx = 0) ∧
    (0 ≤ s.idx → s.idx < (len : ℤ) →
      0 ≤ (stepForward len s).idx ∧ (stepForward len s).idx < (len : ℤ) ∧
      0 ≤ (stepBackward s).idx ∧ (stepBackward s).idx < (len : ℤ)) := by
  refine ⟨rfl, rfl, ?_, ?_, ?_⟩
  · intro h
    simp only [stepForward]
    rw [h]
    omega
  · intro h
    simp only [stepBackward]
    rw [h]
    omega
  · intro h0 h1
    simp only [stepForward, stepBackward]
    omega

/-- C9, witness: a three-step sequence paused at its last index 2 — forward
stays at 2, and from index 0 backward stays at 0. -/
theorem C9_step_clamped_witness :
    (stepForward 3 ⟨2, true, 1⟩).idx = 2 ∧
    (stepBackward ⟨0, true, 1⟩).idx = 0 :=
  ⟨(C9_step_clamped 3 ⟨2, true, 1⟩).2.2.1 rfl,
   (C9_step_clamped 3 ⟨0, true, 1⟩).2.2.2.1 rfl⟩

/-- C10: both log stores are bounded — a call on a store of at most 51
records leaves at most 51 records, the new record is appended last, the
front record is dropped exactly when the store held more than 50 records,
and otherwise the store is only appended to. -/
theorem C10_bounded_store {α : Type} (logs : List α) (l : α) :
    (logs.length ≤ 51 → (saveLog logs l).length ≤ 51) ∧
    (saveLog logs l).getLast? = some l ∧
    (logs.length > 50 → saveLog logs l = logs.tail ++ [l]) ∧
    (logs.length ≤ 50 → saveLog logs l = logs ++ [l]) ∧
    (logs.length ≤ 51 → (saveErrorLog logs l).length ≤ 51) ∧
    (saveErrorLog logs l).getLast? = some l ∧
    (logs.length > 50 → saveErrorLog logs l = logs.tail ++ [l]) ∧
    (logs.length ≤ 50 → saveErrorLog logs l = logs ++ [l]) := by
  have hlen : ∀ h51 : logs.length ≤ 51, (saveLog logs l).length ≤ 51 := by
    intro h51
    rw [saveLog]
    split <;> simp <;> omega
  have hlast : (saveLog logs l).getLast? = some l := by
    rw [saveLog]
    split <;> simp
  have hdrop : ∀ _ : logs.length > 50, saveLog logs l = logs.tail ++ [l] := by
    intro h
    rw [saveLog, if_pos h]
  have hkeep : ∀ _ : logs.length ≤ 50, saveLog logs l = logs ++ [l] := by
    intro h
    rw [saveLog, if_neg (by omega)]
  exact ⟨hlen, hlast, hdrop, hkeep, hlen, hlast, hdrop, hkeep⟩

/-- C10, witness: saving onto a full store of 51 records drops the oldest
and keeps the bound. -/
theorem C10_bounded_store_witness :
    (saveLog (List.replicate 51 (0 : ℕ)) 7).length ≤ 51 ∧
    saveLog (List.replicate 51 (0 : ℕ)) 7
      = (List.replicate 51 (0 : ℕ)).tail ++ [7] := by
  have h := C10_bounded_store (List.replicate 51 (0 : ℕ)) 7
  exact ⟨h.1 (by simp), h.2.2.1 (by simp)⟩
